import Mathlib

/-!
Verification of the sekha-python-sdk client core: the typed error taxonomy
and per-operation error translation (src/sekha/client.py, src/sekha/errors.py),
the retry wrapper on create_conversation, the sliding-window rate limiter and
exponential backoff helper (src/sekha/utils.py), and the configuration / API
key validators.  Machine reals (Python floats for times, delays, confidences)
are modelled as rationals; JSON payload decoding is abstracted: a successful
HTTP response carries an opaque decoded body.
-/

namespace Sekha

/-- Kind tags for the typed error taxonomy of src/sekha/errors.py:
SekhaError (generic), SekhaAPIError, SekhaNotFoundError, SekhaAuthError,
SekhaConnectionError, SekhaValidationError, SekhaRateLimitError. -/
inductive ErrKind where
  | generic
  | apiError
  | notFound
  | authFailed
  | connectionFailed
  | validationFailed
  | rateLimited
deriving DecidableEq, Repr

/-- Typed errors of src/sekha/errors.py.  Payloads follow the constructor
arguments used in the source: SekhaAPIError carries (message, status_code,
response body); SekhaValidationError is raised with (message, body); the
others carry a message. -/
inductive TypedError where
  | Generic (msg : String)
  | APIError (msg : String) (status : Nat) (body : String)
  | NotFound (msg : String)
  | AuthFailed (msg : String)
  | ConnectionFailed (msg : String)
  | ValidationFailed (msg : String) (body : String)
  | RateLimited (msg : String)
deriving DecidableEq, Repr

/-- The taxonomy kind of a typed error. -/
def TypedError.kind : TypedError → ErrKind
  | .Generic _ => .generic
  | .APIError _ _ _ => .apiError
  | .NotFound _ => .notFound
  | .AuthFailed _ => .authFailed
  | .ConnectionFailed _ => .connectionFailed
  | .ValidationFailed _ _ => .validationFailed
  | .RateLimited _ => .rateLimited

/-- An exception surfaced to the caller of a client operation: either one of
the typed Sekha errors, or a raw transport-layer exception that the operation
body did not catch (identified by its Python exception name). -/
inductive Raised where
  | typed (e : TypedError)
  | untyped (exn : String)
deriving DecidableEq, Repr

/-- True when the surfaced exception belongs to the typed taxonomy. -/
def Raised.isTyped : Raised → Bool
  | .typed _ => true
  | .untyped _ => false

/-- Outcome of one underlying HTTP attempt, as seen by the try block of a
client operation: a successful response (carrying its decoded body,
abstracted to a string), an httpx.HTTPStatusError raised by
raise_for_status (status code and response text), an httpx.TimeoutException,
an httpx.ConnectError, or any other exception. -/
inductive HttpOutcome where
  | success (body : String)
  | statusError (status : Nat) (text : String)
  | timeout
  | connectError (msg : String)
  | otherError (msg : String)
deriving DecidableEq, Repr

/-- Abstraction of Python str(e) for an exception outcome, used by the
operations whose catch-all handler interpolates the exception into a
SekhaError message. -/
def HttpOutcome.exnText : HttpOutcome → String
  | .success _ => ""
  | .statusError s _ => "HTTPStatusError " ++ toString s
  | .timeout => "TimeoutException"
  | .connectError m => m
  | .otherError m => m

/-- True when the outcome is handled at the HTTP level: a success or an
httpx.HTTPStatusError (as opposed to a timeout, connection failure or other
exception). -/
def HttpOutcome.isHttpLevel : HttpOutcome → Bool
  | .success _ => true
  | .statusError _ _ => true
  | _ => false

/-- Body of SekhaClient.create_conversation (client.py lines 126 to 148):
400 raises SekhaValidationError, 401 raises SekhaAuthError, any other status
raises SekhaAPIError; httpx.TimeoutException raises SekhaConnectionError;
every other exception (including httpx.ConnectError) is wrapped by the
catch-all as a generic SekhaError. -/
def create_conversation (o : HttpOutcome) : Except Raised String :=
  match o with
  | .success body => .ok body
  | .statusError s t =>
      if s = 400 then .error (.typed (.ValidationFailed "Invalid conversation data" t))
      else if s = 401 then .error (.typed (.AuthFailed "Invalid API key"))
      else .error (.typed (.APIError ("Failed to create conversation: " ++ t) s t))
  | .timeout => .error (.typed (.ConnectionFailed "Request timed out"))
  | .connectError m => .error (.typed (.Generic ("Unexpected error: " ++ m)))
  | .otherError m => .error (.typed (.Generic ("Unexpected error: " ++ m)))

/-- Body of SekhaClient.get_conversation (client.py lines 150 to 164): the
only except clause handles httpx.HTTPStatusError (404 raises
SekhaNotFoundError, anything else SekhaAPIError); a timeout, connection
failure or any other exception propagates untyped. -/
def get_conversation (cid : String) (o : HttpOutcome) : Except Raised String :=
  match o with
  | .success body => .ok body
  | .statusError s t =>
      if s = 404 then .error (.typed (.NotFound ("Conversation " ++ cid ++ " not found")))
      else .error (.typed (.APIError "Failed to get conversation" s t))
  | .timeout => .error (.untyped "httpx.TimeoutException")
  | .connectError _ => .error (.untyped "httpx.ConnectError")
  | .otherError m => .error (.untyped m)

/-- Body of SekhaClient.list_conversations (client.py lines 166 to 189): a
single catch-all wraps every exception, including HTTP status errors, as a
generic SekhaError. -/
def list_conversations (o : HttpOutcome) : Except Raised String :=
  match o with
  | .success body => .ok body
  | e => .error (.typed (.Generic ("Failed to list conversations: " ++ e.exnText)))

/-- Body of SekhaClient.update_label (client.py lines 191 to 216): only
httpx.HTTPStatusError is handled (404 raises SekhaNotFoundError, anything
else SekhaAPIError); other exceptions propagate untyped. -/
def update_label (cid : String) (o : HttpOutcome) : Except Raised String :=
  match o with
  | .success body => .ok body
  | .statusError s t =>
      if s = 404 then .error (.typed (.NotFound ("Conversation " ++ cid ++ " not found")))
      else .error (.typed (.APIError "Failed to update label" s t))
  | .timeout => .error (.untyped "httpx.TimeoutException")
  | .connectError _ => .error (.untyped "httpx.ConnectError")
  | .otherError m => .error (.untyped m)

/-- Body of SekhaClient.delete_conversation (client.py lines 218 to 233):
same handler shape as get_conversation. -/
def delete_conversation (cid : String) (o : HttpOutcome) : Except Raised String :=
  match o with
  | .success body => .ok body
  | .statusError s t =>
      if s = 404 then .error (.typed (.NotFound ("Conversation " ++ cid ++ " not found")))
      else .error (.typed (.APIError "Failed to delete conversation" s t))
  | .timeout => .error (.untyped "httpx.TimeoutException")
  | .connectError _ => .error (.untyped "httpx.ConnectError")
  | .otherError m => .error (.untyped m)

/-- Body of SekhaClient.smart_query (client.py lines 239 to 284): 400 raises
SekhaValidationError, 401 SekhaAuthError, other statuses SekhaAPIError;
timeout and connect errors raise SekhaConnectionError; anything else is
wrapped as a generic SekhaError. -/
def smart_query (o : HttpOutcome) : Except Raised String :=
  match o with
  | .success body => .ok body
  | .statusError s t =>
      if s = 400 then .error (.typed (.ValidationFailed "Invalid query parameters" t))
      else if s = 401 then .error (.typed (.AuthFailed "Invalid API key"))
      else .error (.typed (.APIError ("Smart query failed: " ++ t) s t))
  | .timeout => .error (.typed (.ConnectionFailed "Smart query timed out"))
  | .connectError m => .error (.typed (.ConnectionFailed ("Connection failed: " ++ m)))
  | .otherError m => .error (.typed (.Generic ("Smart query failed: " ++ m)))

/-- Body of SekhaClient.score_message_importance (client.py lines 288 to
303): a single catch-all wraps every exception as a generic SekhaError. -/
def score_message_importance (o : HttpOutcome) : Except Raised String :=
  match o with
  | .success body => .ok body
  | e => .error (.typed (.Generic ("Failed to score message: " ++ e.exnText)))

/-- Body of SekhaClient.generate_summary (client.py lines 307 to 324): a
single catch-all wraps every exception as a generic SekhaError. -/
def generate_summary (o : HttpOutcome) : Except Raised String :=
  match o with
  | .success body => .ok body
  | e => .error (.typed (.Generic ("Failed to generate summary: " ++ e.exnText)))

/-- Body of SekhaClient.get_pruning_suggestions (client.py lines 328 to 349):
a single catch-all wraps every exception as a generic SekhaError. -/
def get_pruning_suggestions (o : HttpOutcome) : Except Raised String :=
  match o with
  | .success body => .ok body
  | e => .error (.typed (.Generic ("Failed to get pruning suggestions: " ++ e.exnText)))

/-- Body of SekhaClient.suggest_labels (client.py lines 353 to 369): a single
catch-all wraps every exception as a generic SekhaError. -/
def suggest_labels (o : HttpOutcome) : Except Raised String :=
  match o with
  | .success body => .ok body
  | e => .error (.typed (.Generic ("Failed to suggest labels: " ++ e.exnText)))

/-- Body of SekhaClient.export (client.py lines 403 to 442; the source method
is named export, which is a reserved word here): 400 raises
SekhaValidationError, other statuses SekhaAPIError, and every non-status
exception is wrapped as a generic SekhaError. -/
def export_conversations (o : HttpOutcome) : Except Raised String :=
  match o with
  | .success body => .ok body
  | .statusError s t =>
      if s = 400 then .error (.typed (.ValidationFailed "Invalid export parameters" t))
      else .error (.typed (.APIError "Export failed" s t))
  | e => .error (.typed (.Generic ("Export failed: " ++ e.exnText)))

/-- Body of SekhaClient._update_status (client.py lines 444 to 464), the
shared implementation behind pin and archive: 404 raises SekhaNotFoundError,
400 SekhaValidationError, other statuses SekhaAPIError, and every non-status
exception is wrapped as a generic SekhaError. -/
def update_status (cid : String) (o : HttpOutcome) : Except Raised String :=
  match o with
  | .success body => .ok body
  | .statusError s t =>
      if s = 404 then .error (.typed (.NotFound ("Conversation " ++ cid ++ " not found")))
      else if s = 400 then .error (.typed (.ValidationFailed "Invalid status" t))
      else .error (.typed (.APIError "Status update failed" s t))
  | e => .error (.typed (.Generic ("Status update failed: " ++ e.exnText)))

/-- Body of SekhaClient.get_mcp_tools (client.py lines 468 to 478): a single
catch-all wraps every exception as a generic SekhaError. -/
def get_mcp_tools (o : HttpOutcome) : Except Raised String :=
  match o with
  | .success body => .ok body
  | e => .error (.typed (.Generic ("Failed to get MCP tools: " ++ e.exnText)))

/-- True when an operation result is either a success or a typed error, i.e.
no untyped transport exception escaped. -/
def typedResult (r : Except Raised String) : Bool :=
  match r with
  | .ok _ => true
  | .error e => e.isTyped

/-- The kind of the typed error surfaced by an operation result, when it is
one. -/
def errKindAt (r : Except Raised String) : Option ErrKind :=
  match r with
  | .error (.typed e) => some e.kind
  | _ => none

/-- Retry condition of the backoff.on_exception decorator on
create_conversation (client.py lines 104 to 106): it retries on
SekhaConnectionError and on a raw httpx.TimeoutException.  Inside the body a
timeout has already been re-raised as SekhaConnectionError, so the raw
exception case is listed for faithfulness only. -/
def create_retryable (r : Raised) : Bool :=
  match r with
  | .typed e => e.kind = .connectionFailed
  | .untyped exn => exn = "httpx.TimeoutException"

/-- Execution of backoff.on_exception around a body: attempt i runs the body
on the i-th transport outcome; a retryable failure with remaining tries moves
to the next attempt, any other result is final.  Returns the result together
with the number of attempts performed.  The fuel argument is the number of
retries still allowed (max_tries minus one at the first attempt). -/
def retry_exec (retryable : Raised → Bool) (body : Nat → Except Raised String)
    (i : Nat) : Nat → Except Raised String × Nat
  | 0 => (body i, i + 1)
  | fuel + 1 =>
      match body i with
      | .ok v => (.ok v, i + 1)
      | .error e =>
          if retryable e then retry_exec retryable body (i + 1) fuel
          else (.error e, i + 1)

/-- A body wrapped with backoff.on_exception and a total attempt budget of
max_tries, starting at attempt 0. -/
def with_max_tries (retryable : Raised → Bool) (max_tries : Nat)
    (body : Nat → Except Raised String) : Except Raised String × Nat :=
  retry_exec retryable body 0 (max_tries - 1)

/-- create_conversation as actually exposed by the client: its body wrapped
by backoff.on_exception(backoff.expo, (SekhaConnectionError,
httpx.TimeoutException), max_tries = 3), fed the sequence of per-attempt
transport outcomes. -/
def create_conversation_with_retry (outcomes : Nat → HttpOutcome) :
    Except Raised String × Nat :=
  with_max_tries create_retryable 3 (fun i => create_conversation (outcomes i))

/-- get_conversation as exposed by the client: no retry decorator, so exactly
one attempt is performed whatever the outcome sequence holds. -/
def get_conversation_run (cid : String) (outcomes : Nat → HttpOutcome) :
    Except Raised String × Nat :=
  (get_conversation cid (outcomes 0), 1)

/-- A label suggestion (models.py LabelSuggestion), restricted to the fields
auto_label reads; confidence is modelled as a rational. -/
structure LabelSuggestion where
  label : String
  confidence : Rat
deriving DecidableEq, Repr

/-- Body of SekhaClient.auto_label (client.py lines 371 to 392): walk the
suggestion list in order; at the first suggestion whose confidence is at
least the threshold, issue one update_label call for its label and return
that label; if no suggestion qualifies, issue no call and return None.  The
result pairs the list of issued update-label calls with the returned label. -/
def auto_label (suggestions : List LabelSuggestion) (threshold : Rat) :
    List String × Option String :=
  match suggestions with
  | [] => ([], none)
  | s :: rest =>
      if threshold ≤ s.confidence then ([s.label], some s.label)
      else auto_label rest threshold

/-- State of utils.RateLimiter: the configured budget, the window length in
seconds, and the recorded request timestamps (times modelled as
rationals). -/
structure RateLimiter where
  max_requests : Int
  window_seconds : Rat
  requests : List Rat
deriving DecidableEq, Repr

/-- RateLimiter.__init__ (utils.py lines 23 to 27): stores both parameters
unchecked and starts with an empty timestamp list. -/
def RateLimiter.init (max_requests : Int) (window_seconds : Rat) : RateLimiter :=
  ⟨max_requests, window_seconds, []⟩

/-- RateLimiter construction viewed as a fallible validation step: the source
constructor performs no validation at all, so every argument pair is
accepted. -/
def RateLimiter.construct (max_requests : Int) (window_seconds : Rat) :
    Except String RateLimiter :=
  .ok (RateLimiter.init max_requests window_seconds)

/-- RateLimiter.acquire (utils.py lines 29 to 49) at clock reading now:
prune timestamps req with now - req not less than the window; if
max_requests is at most 0, sleep a full window; else if the pruned list has
reached max_requests, sleep window - (now - oldest) when that is positive;
finally append now — the clock reading taken before the sleep — to the list.
Returns the requested sleep duration and the new state; the acquire
completes at time now plus that duration. -/
def RateLimiter.acquire (rl : RateLimiter) (now : Rat) : Rat × RateLimiter :=
  let pruned := rl.requests.filter (fun req => decide (now - req < rl.window_seconds))
  let wait : Rat :=
    if rl.max_requests ≤ 0 then rl.window_seconds
    else if rl.max_requests ≤ (pruned.length : Int) then
      match pruned with
      | [] => 0
      | oldest :: _ =>
          if 0 < rl.window_seconds - (now - oldest) then
            rl.window_seconds - (now - oldest)
          else 0
    else 0
  (wait, ⟨rl.max_requests, rl.window_seconds, pruned ++ [now]⟩)

/-- Number of recorded timestamps lying in the trailing interval of length w
ending at t. -/
def countInWindow (stamps : List Rat) (t w : Rat) : Nat :=
  (stamps.filter (fun s => decide (t - w < s) && decide (s ≤ t))).length

/-- State of utils.ExponentialBackoff: the three construction-time constants
and the mutable attempt counter. -/
structure ExponentialBackoff where
  base_delay : Rat
  max_delay : Rat
  factor : Rat
  attempt : Nat
deriving DecidableEq, Repr

/-- The pre-jitter delay computed by ExponentialBackoff.wait (utils.py line
64): min(base_delay * factor ** attempt, max_delay). -/
def ExponentialBackoff.delay (b : ExponentialBackoff) : Rat :=
  min (b.base_delay * b.factor ^ b.attempt) b.max_delay

/-- The same backoff state with the attempt counter set to n. -/
def ExponentialBackoff.withAttempt (b : ExponentialBackoff) (n : Nat) :
    ExponentialBackoff :=
  ⟨b.base_delay, b.max_delay, b.factor, n⟩

/-- ExponentialBackoff.wait (utils.py lines 62 to 68): compute the delay, add
jitter delay * 0.1 * (h % 10) / 10 where h is the per-call hash of the
current task identity (a nonnegative integer, passed here as the jitter
source), sleep delay + jitter, then increment the attempt counter.  Returns
the requested sleep duration and the advanced state. -/
def ExponentialBackoff.wait (b : ExponentialBackoff) (jitterSource : Nat) :
    Rat × ExponentialBackoff :=
  let delay := b.delay
  let jitter := delay * (1 / 10) * ((jitterSource % 10 : Nat) : Rat) / 10
  (delay + jitter, b.withAttempt (b.attempt + 1))

/-- ExponentialBackoff.reset (utils.py lines 70 to 72). -/
def ExponentialBackoff.reset (b : ExponentialBackoff) : ExponentialBackoff :=
  b.withAttempt 0

/-- Python str.startswith, evaluated on the character lists of the two
strings. -/
def py_startswith (s p : String) : Bool :=
  decide (s.toList.take p.toList.length = p.toList)

/-- utils.validate_api_key (utils.py lines 75 to 100), on string inputs (the
non-string branch is unreachable from typed Lean).  Error messages follow the
source, with its quoted prefix rendered unquoted. -/
def validate_api_key (api_key : String) : Except String Bool :=
  if api_key.toList = [] then .error "API key is required"
  else if py_startswith api_key "sk-test-" then
    if api_key.length < 20 then
      .error "API key appears to be too short (min 20 characters for test keys)"
    else .ok true
  else if api_key.length < 32 then
    .error "API key appears to be too short (must be at least 32 characters)"
  else if ¬ py_startswith api_key "sk-sekha-" then
    .error "API key must start with sk-sekha-"
  else if api_key.length > 128 then
    .error "API key appears to be too long (max 128 characters)"
  else .ok true

/-- Python regex whitespace class backslash-s. -/
def isPyWhitespace (c : Char) : Bool :=
  c = ' ' || c = '\t' || c = '\n' || c = '\r' || c.toNat = 11 || c.toNat = 12

/-- The regex of utils.validate_base_url, anchored at both ends and matched
case-insensitively: https? colon slash slash, one character outside the
class of whitespace, slash, dollar, dot, question mark and hash, one further
character other than newline, then any run of non-whitespace characters; a
single trailing newline is tolerated by the end anchor, as in Python. -/
def matches_url_pattern (url : String) : Bool :=
  let lower := url.toList.map Char.toLower
  let rest? : Option (List Char) :=
    if lower.take 8 = "https://".toList then some (lower.drop 8)
    else if lower.take 7 = "http://".toList then some (lower.drop 7)
    else none
  match rest? with
  | none => false
  | some rest =>
      match rest with
      | c1 :: c2 :: tail =>
          let tail' := if tail.getLast? = some '\n' then tail.dropLast else tail
          ¬ isPyWhitespace c1 && c1 ≠ '/' && c1 ≠ '$' && c1 ≠ '.' && c1 ≠ '?' &&
            c1 ≠ '#' && c2 ≠ '\n' && tail'.all (fun c => ¬ isPyWhitespace c)
      | _ => false

/-- utils.validate_base_url (utils.py lines 103 to 120), on string inputs. -/
def validate_base_url (url : String) : Except String Bool :=
  if url.toList = [] then .error "base_url is required"
  else if url.toList.contains '[' && ¬ url.toList.contains ']' then
    .error "Invalid base_url: malformed IPv6 address"
  else if ¬ matches_url_pattern url then
    .error "Invalid base_url: must be a valid URL starting with http:// or https://"
  else .ok true

/-- client.ClientConfig (client.py lines 15 to 36), restricted to the fields
its validation reads; numeric fields are modelled as rationals and
integers. -/
structure ClientConfig where
  api_key : String
  base_url : String
  timeout : Rat
  max_retries : Int
  rate_limit_requests : Int
  rate_limit_window : Rat
deriving DecidableEq, Repr

/-- ClientConfig.__post_init__ (client.py lines 27 to 36): validate the API
key and base URL, require a positive timeout and a nonnegative max_retries.
No check touches rate_limit_requests or rate_limit_window. -/
def ClientConfig.post_init (c : ClientConfig) : Except String Unit :=
  match validate_api_key c.api_key with
  | .error e => .error e
  | .ok _ =>
      match validate_base_url c.base_url with
      | .error e => .error e
      | .ok _ =>
          if c.timeout ≤ 0 then .error "timeout must be positive"
          else if c.max_retries < 0 then .error "max_retries must be non-negative"
          else .ok ()

/-- Modelled from the spec: the authoritative status translation table of
section 4.3 (400 to ValidationFailed, 401 to AuthFailed, 404 to NotFound,
every other error status to APIError), transcribed at the kind level for
comparison against the per-operation translators embedded from the code. -/
def specTableKind (status : Nat) : ErrKind :=
  if status = 400 then .validationFailed
  else if status = 401 then .authFailed
  else if status = 404 then .notFound
  else .apiError

/-- C7: with max_requests = 0, every RateLimiter.acquire call suspends for at
least one full window duration before completing (the requested sleep is the
whole window, whatever the recorded state and the current time). -/
theorem C7_zero_budget_full_window (rl : RateLimiter) (now : Rat)
    (h : rl.max_requests = 0) :
    rl.window_seconds ≤ (rl.acquire now).1 := by
  simp [RateLimiter.acquire, h]

/-- Witness for C7 at a concrete limiter: max_requests 0, window 1, acquire
at time 5. -/
theorem C7_zero_budget_full_window_witness :
    (1 : Rat) ≤ ((RateLimiter.init 0 1).acquire 5).1 :=
  C7_zero_budget_full_window (RateLimiter.init 0 1) 5 rfl

/-- C3: evaluation of the rate limiter at a failing input, refuting the
sliding-window capacity invariant.  With max_requests 1 and window 60, an
acquire at time 0 followed by an acquire entering at time 0 (which sleeps
the full 60 seconds) records the pre-sleep clock reading, leaving the list
[0, 0]: two timestamps inside one trailing window.  The second acquire
completes at time 60, and a third caller entering at time 60 is admitted
with zero wait because both stale records are pruned, so two admissions
complete at the same instant — more than max_requests in one window. -/
theorem C3_code_bug_eval :
    ((RateLimiter.init 1 60).acquire 0).1 = 0
    ∧ (((RateLimiter.init 1 60).acquire 0).2.acquire 0).1 = 60
    ∧ (((RateLimiter.init 1 60).acquire 0).2.acquire 0).2.requests = [0, 0]
    ∧ countInWindow (((RateLimiter.init 1 60).acquire 0).2.acquire 0).2.requests 0 60 = 2
    ∧ ((((RateLimiter.init 1 60).acquire 0).2.acquire 0).2.acquire 60).1 = 0 := by
  refine ⟨?_, ?_, ?_, ?_, ?_⟩ <;>
    norm_num [RateLimiter.acquire, RateLimiter.init, countInWindow]

/-- C9 counterexample: a RateLimiter with max_requests equal to -1 is
accepted by the constructor (which performs no validation), and a full
client configuration carrying rate_limit_requests equal to -1 passes
ClientConfig validation, so a negative budget is not rejected at
construction time by any layer. -/
theorem C9_counterexample_negative_budget_accepted :
    RateLimiter.construct (-1) 60 = .ok ⟨-1, 60, []⟩
    ∧ ClientConfig.post_init
        ⟨"sk-test-aaaaaaaaaaaaaaaaaaaa", "http://localhost:8080", 30, 3, -1, 60⟩
        = .ok () :=
  ⟨rfl, rfl⟩

/-- C9 amended: a negative max_requests is accepted unvalidated both by
RateLimiter and through ClientConfig, and at runtime is treated exactly like
a zero budget: every acquire requests a sleep of one full window. -/
theorem C9_amended_negative_budget_semantics (m : Int) (w : Rat) (hm : m < 0)
    (rl : RateLimiter) (now : Rat) (h : rl.max_requests = m) :
    RateLimiter.construct m w = .ok ⟨m, w, []⟩
    ∧ ClientConfig.post_init
        ⟨"sk-test-aaaaaaaaaaaaaaaaaaaa", "http://localhost:8080", 30, 3, m, w⟩
        = .ok ()
    ∧ (rl.acquire now).1 = rl.window_seconds := by
  refine ⟨rfl, rfl, ?_⟩
  have h0 : rl.max_requests ≤ 0 := by rw [h]; exact hm.le
  simp [RateLimiter.acquire, h0]

/-- Witness for C9 amended at max_requests -1, window 60, acquire at time 0. -/
theorem C9_amended_witness :
    RateLimiter.construct (-1) 60 = .ok ⟨-1, 60, []⟩
    ∧ ClientConfig.post_init
        ⟨"sk-test-aaaaaaaaaaaaaaaaaaaa", "http://localhost:8080", 30, 3, -1, 60⟩
        = .ok ()
    ∧ ((RateLimiter.init (-1) 60).acquire 0).1 = (RateLimiter.init (-1) 60).window_seconds :=
  C9_amended_negative_budget_semantics (-1) 60 (by norm_num) (RateLimiter.init (-1) 60) 0 rfl

/-- C10: validate_api_key accepts a key exactly when it starts with sk-test-
and has length at least 20, or starts with sk-sekha- and has length between
32 and 128 inclusive; every accepted key yields True and every other input
raises a ValueError. -/
theorem C10_validate_api_key_characterization (s : String) :
    (validate_api_key s = .ok true ↔
      ((py_startswith s "sk-test-" = true ∧ 20 ≤ s.length) ∨
       (py_startswith s "sk-sekha-" = true ∧ 32 ≤ s.length ∧ s.length ≤ 128)))
    ∧ ((validate_api_key s).isOk = true ↔
      ((py_startswith s "sk-test-" = true ∧ 20 ≤ s.length) ∨
       (py_startswith s "sk-sekha-" = true ∧ 32 ≤ s.length ∧ s.length ≤ 128))) := by
  have hlen : s.length = s.toList.length := rfl
  have key : validate_api_key s = .ok true ↔
      ((py_startswith s "sk-test-" = true ∧ 20 ≤ s.length) ∨
       (py_startswith s "sk-sekha-" = true ∧ 32 ≤ s.length ∧ s.length ≤ 128)) := by
    unfold validate_api_key
    split_ifs with h1 h2 h3 h4 h5 h6
    · have h0 : s.length = 0 := by rw [hlen, h1]; rfl
      exact iff_of_false (by simp) (by rintro (⟨-, h⟩ | ⟨-, h, -⟩) <;> omega)
    · exact iff_of_false (by simp) (by rintro (⟨-, h⟩ | ⟨-, h, -⟩) <;> omega)
    · exact iff_of_true rfl (Or.inl ⟨h2, by omega⟩)
    · exact iff_of_false (by simp)
        (by rintro (⟨h, -⟩ | ⟨-, h, -⟩); exacts [h2 h, by omega])
    · exact iff_of_false (by simp)
        (by rintro (⟨h, -⟩ | ⟨-, -, h⟩); exacts [h2 h, by omega])
    · exact iff_of_true rfl (Or.inr ⟨h5, by omega, by omega⟩)
    · exact iff_of_false (by simp)
        (by rintro (⟨h, -⟩ | ⟨h, -, -⟩); exacts [h2 h, h5 h])
  have isok : (validate_api_key s).isOk = true ↔ validate_api_key s = .ok true := by
    unfold validate_api_key
    split_ifs <;> simp [Except.isOk, Except.toBool]
  exact ⟨key, isok.trans key⟩

/-- C5 counterexample: with suggestions [(B, 0.8), (A, 0.95)] and threshold
0.8 both suggestions meet the threshold and the highest-confidence one is A
(0.8 < 0.95), so the claim predicts one update call for A and result A; the
code instead applies the first qualifying suggestion in list order, issuing
the single update call for B and returning B. -/
theorem C5_counterexample_first_not_highest :
    auto_label [⟨"B", 4/5⟩, ⟨"A", 19/20⟩] (4/5) = (["B"], some "B")
    ∧ auto_label [⟨"B", 4/5⟩, ⟨"A", 19/20⟩] (4/5) ≠ (["A"], some "A")
    ∧ (4 : Rat)/5 ≤ 4/5 ∧ (4 : Rat)/5 ≤ 19/20 ∧ (4 : Rat)/5 < 19/20 := by
  refine ⟨by norm_num [auto_label], ?_, by norm_num, by norm_num, by norm_num⟩
  norm_num [auto_label]
  decide

/-- C5 amended: auto_label applies the first suggestion in list order whose
confidence meets the threshold, issuing exactly one label-update call and
returning that label, and issues zero calls returning None when no
suggestion qualifies; on the spec scenario [(A, 0.95), (B, 0.4)] this yields
one call for A at threshold 0.8 and no call at threshold 0.99. -/
theorem C5_amended_first_qualifying_suggestion (l : List LabelSuggestion) (t : Rat) :
    auto_label l t =
      (match l.find? (fun s => decide (t ≤ s.confidence)) with
       | some s => ([s.label], some s.label)
       | none => ([], none))
    ∧ auto_label [⟨"A", 19/20⟩, ⟨"B", 2/5⟩] (4/5) = (["A"], some "A")
    ∧ auto_label [⟨"A", 19/20⟩, ⟨"B", 2/5⟩] (99/100) = ([], none) := by
  refine ⟨?_, by norm_num [auto_label], by norm_num [auto_label]⟩
  induction l with
  | nil => rfl
  | cons s rest ih =>
      by_cases h : t ≤ s.confidence
      · simp [auto_label, List.find?, h]
      · simp [auto_label, List.find?, h, ih]

/-- C6 counterexample: the constructor accepts any factor, and with
base_delay 1, max_delay 60, factor one half — a state expressible in the
source — the pre-jitter delay strictly decreases from attempt 0 to attempt
1, refuting monotone non-decrease for every BackoffState. -/
theorem C6_counterexample_decreasing_delay :
    (ExponentialBackoff.mk 1 60 (1/2) 1).delay < (ExponentialBackoff.mk 1 60 (1/2) 0).delay := by
  norm_num [ExponentialBackoff.delay, min_def]

/-- C6 amended: for a BackoffState with nonnegative base_delay and factor at
least 1 (as in every instance the SDK constructs), the pre-jitter delay at
attempt n equals min(base_delay * factor ^ n, max_delay), is monotonically
non-decreasing in the attempt counter, never exceeds max_delay, and after
reset the next delay equals the delay at attempt 0. -/
theorem C6_amended_backoff_delay_properties (b : ExponentialBackoff)
    (h0 : 0 ≤ b.base_delay) (h1 : 1 ≤ b.factor) (n : Nat) :
    (b.withAttempt n).delay = min (b.base_delay * b.factor ^ n) b.max_delay
    ∧ (b.withAttempt n).delay ≤ (b.withAttempt (n + 1)).delay
    ∧ (b.withAttempt n).delay ≤ b.max_delay
    ∧ b.reset.delay = (b.withAttempt 0).delay := by
  refine ⟨rfl, ?_, ?_, rfl⟩
  · apply min_le_min _ le_rfl
    apply mul_le_mul_of_nonneg_left _ h0
    exact pow_le_pow_right₀ h1 (Nat.le_succ n)
  · exact min_le_right _ _

/-- Witness for C6 amended at the client construction values base_delay 0.5,
max_delay 10, factor 2, attempt 3. -/
theorem C6_amended_witness :
    ((ExponentialBackoff.mk (1/2) 10 2 0).withAttempt 3).delay
        = min ((1/2 : Rat) * 2 ^ 3) 10
    ∧ ((ExponentialBackoff.mk (1/2) 10 2 0).withAttempt 3).delay
        ≤ ((ExponentialBackoff.mk (1/2) 10 2 0).withAttempt 4).delay
    ∧ ((ExponentialBackoff.mk (1/2) 10 2 0).withAttempt 3).delay ≤ 10
    ∧ (ExponentialBackoff.mk (1/2) 10 2 0).reset.delay
        = ((ExponentialBackoff.mk (1/2) 10 2 0).withAttempt 0).delay :=
  C6_amended_backoff_delay_properties (ExponentialBackoff.mk (1/2) 10 2 0)
    (by norm_num) (by norm_num) 3

/-- C8: for every attempt counter and every value of the per-call jitter
source, on a state whose configured delays and factor are nonnegative, the
requested wait of ExponentialBackoff.wait lies between the computed delay
and 1.1 times that delay (the jitter adds at most 9 percent). -/
theorem C8_jitter_within_bounds (b : ExponentialBackoff) (k : Nat)
    (h0 : 0 ≤ b.base_delay) (h1 : 0 ≤ b.factor) (h2 : 0 ≤ b.max_delay) :
    b.delay ≤ (b.wait k).1 ∧ (b.wait k).1 ≤ 11/10 * b.delay := by
  have hd : 0 ≤ b.delay := le_min (mul_nonneg h0 (pow_nonneg h1 _)) h2
  have hm0 : (0 : Rat) ≤ ((k % 10 : Nat) : Rat) := Nat.cast_nonneg _
  have hm9 : ((k % 10 : Nat) : Rat) ≤ 9 := by
    have h : k % 10 ≤ 9 := Nat.lt_succ_iff.mp (Nat.mod_lt k (by norm_num))
    exact_mod_cast h
  simp only [ExponentialBackoff.wait]
  constructor
  · nlinarith
  · nlinarith

/-- Witness for C8 at the client construction values, attempt 2, jitter
source 7. -/
theorem C8_jitter_witness :
    (ExponentialBackoff.mk (1/2) 10 2 2).delay
        ≤ ((ExponentialBackoff.mk (1/2) 10 2 2).wait 7).1
    ∧ ((ExponentialBackoff.mk (1/2) 10 2 2).wait 7).1
        ≤ 11/10 * (ExponentialBackoff.mk (1/2) 10 2 2).delay :=
  C8_jitter_within_bounds (ExponentialBackoff.mk (1/2) 10 2 2) 7
    (by norm_num) (by norm_num) (by norm_num)

/-- C1 counterexample: HTTP status 400 does not always yield the same error
kind — create_conversation translates it to ValidationFailed as the
authoritative table says, but get_conversation translates the same status to
APIError and list_conversations wraps it as Generic. -/
theorem C1_counterexample_status_mapping_diverges :
    errKindAt (create_conversation (.statusError 400 "bad")) = some .validationFailed
    ∧ errKindAt (get_conversation "c1" (.statusError 400 "bad")) = some .apiError
    ∧ errKindAt (list_conversations (.statusError 400 "bad")) = some .generic
    ∧ specTableKind 400 = .validationFailed :=
  ⟨rfl, rfl, rfl, rfl⟩

/-- C1 amended: each operation translates HTTP statuses through its own
table rather than one shared authoritative table.  create_conversation and
smart_query agree with the spec table except on 404 (mapped to APIError);
get_conversation, update_label and delete_conversation agree except on 400
and 401 (mapped to APIError); the status-update operation behind pin and
archive agrees except on 401; export agrees except on 401 and 404; the
remaining operations wrap every status error as Generic.  Within each
operation the translation is a function of the status, and the catch-all
APIError branches carry the status and raw body. -/
theorem C1_amended_per_operation_translation (cid t : String) (s : Nat) :
    (errKindAt (create_conversation (.statusError s t)) = some (specTableKind s) ↔ s ≠ 404)
    ∧ (errKindAt (smart_query (.statusError s t)) = some (specTableKind s) ↔ s ≠ 404)
    ∧ (errKindAt (get_conversation cid (.statusError s t)) = some (specTableKind s)
        ↔ (s ≠ 400 ∧ s ≠ 401))
    ∧ (errKindAt (update_label cid (.statusError s t)) = some (specTableKind s)
        ↔ (s ≠ 400 ∧ s ≠ 401))
    ∧ (errKindAt (delete_conversation cid (.statusError s t)) = some (specTableKind s)
        ↔ (s ≠ 400 ∧ s ≠ 401))
    ∧ (errKindAt (update_status cid (.statusError s t)) = some (specTableKind s) ↔ s ≠ 401)
    ∧ (errKindAt (export_conversations (.statusError s t)) = some (specTableKind s)
        ↔ (s ≠ 401 ∧ s ≠ 404))
    ∧ errKindAt (list_conversations (.statusError s t)) = some .generic
    ∧ errKindAt (score_message_importance (.statusError s t)) = some .generic
    ∧ errKindAt (generate_summary (.statusError s t)) = some .generic
    ∧ errKindAt (get_pruning_suggestions (.statusError s t)) = some .generic
    ∧ errKindAt (suggest_labels (.statusError s t)) = some .generic
    ∧ errKindAt (get_mcp_tools (.statusError s t)) = some .generic
    ∧ (create_conversation (.statusError s t) =
        .error (.typed (.APIError ("Failed to create conversation: " ++ t) s t))
        ↔ (s ≠ 400 ∧ s ≠ 401))
    ∧ (get_conversation cid (.statusError s t) =
        .error (.typed (.APIError "Failed to get conversation" s t)) ↔ s ≠ 404) := by
  by_cases h400 : s = 400 <;> by_cases h401 : s = 401 <;> by_cases h404 : s = 404 <;>
    simp_all [create_conversation, smart_query, get_conversation, update_label,
      delete_conversation, update_status, export_conversations, list_conversations,
      score_message_importance, generate_summary, get_pruning_suggestions,
      suggest_labels, get_mcp_tools, errKindAt, specTableKind, TypedError.kind]

/-- C2 counterexample: get_conversation, an idempotent read the claim says
is wrapped in the bounded retry, performs exactly one attempt and surfaces
the raw timeout exception even when the next attempt would succeed; and
create_conversation does not retry a connection-refused outcome, because its
catch-all wraps it as a generic SekhaError before the retry decorator can
see a retryable exception. -/
theorem C2_counterexample_reads_not_retried :
    get_conversation_run "c1" (fun i => if i = 0 then .timeout else .success "v")
      = (.error (.untyped "httpx.TimeoutException"), 1)
    ∧ create_conversation_with_retry
        (fun i => if i = 0 then .connectError "refused" else .success "v")
      = (.error (.typed (.Generic "Unexpected error: refused")), 1) :=
  ⟨rfl, rfl⟩

/-- C2 amended: only create_conversation is wrapped in the bounded retry
(max 3 attempts, the decorator constant; config.max_retries is not
consulted), and it retries exactly the outcomes its body surfaces as
ConnectionFailed, namely network timeouts; two timeouts followed by a
success return the success value on the third attempt, three timeouts
surface ConnectionFailed after exactly 3 attempts, and validation, auth,
API-error and connection-refused (wrapped Generic) outcomes are surfaced
after exactly 1 attempt; read operations perform a single attempt. -/
theorem C2_amended_retry_only_create (os : Nat → HttpOutcome) (v t m : String) :
    (os 0 = .timeout → os 1 = .timeout → os 2 = .success v →
      create_conversation_with_retry os = (.ok v, 3))
    ∧ (os 0 = .timeout → os 1 = .timeout → os 2 = .timeout →
      create_conversation_with_retry os =
        (.error (.typed (.ConnectionFailed "Request timed out")), 3))
    ∧ (os 0 = .statusError 400 t →
      create_conversation_with_retry os =
        (.error (.typed (.ValidationFailed "Invalid conversation data" t)), 1))
    ∧ (os 0 = .statusError 401 t →
      create_conversation_with_retry os =
        (.error (.typed (.AuthFailed "Invalid API key")), 1))
    ∧ (os 0 = .statusError 404 t →
      create_conversation_with_retry os =
        (.error (.typed (.APIError ("Failed to create conversation: " ++ t) 404 t)), 1))
    ∧ (os 0 = .connectError m →
      create_conversation_with_retry os =
        (.error (.typed (.Generic ("Unexpected error: " ++ m))), 1)) := by
  refine ⟨?_, ?_, ?_, ?_, ?_, ?_⟩ <;> intro h0 <;> try intro h1 h2
  all_goals
    simp [create_conversation_with_retry, with_max_tries, retry_exec,
      create_conversation, create_retryable, TypedError.kind, *]

/-- Witness for C2 amended: the retry behaviour at three concrete outcome
sequences — two timeouts then success, all timeouts, and an immediate 400. -/
theorem C2_amended_witness :
    create_conversation_with_retry (fun i => if i < 2 then .timeout else .success "v")
      = (.ok "v", 3)
    ∧ create_conversation_with_retry (fun _ => .timeout)
      = (.error (.typed (.ConnectionFailed "Request timed out")), 3)
    ∧ create_conversation_with_retry (fun _ => .statusError 400 "bad")
      = (.error (.typed (.ValidationFailed "Invalid conversation data" "bad")), 1) :=
  ⟨(C2_amended_retry_only_create (fun i => if i < 2 then .timeout else .success "v")
      "v" "t" "m").1 rfl rfl rfl,
   (C2_amended_retry_only_create (fun _ => .timeout) "v" "t" "m").2.1 rfl rfl rfl,
   (C2_amended_retry_only_create (fun _ => .statusError 400 "bad") "v" "bad" "m").2.2.1 rfl⟩

/-- C4 counterexample: a network timeout during get_conversation escapes to
the caller as the raw httpx.TimeoutException, outside the typed taxonomy,
because that operation only handles httpx.HTTPStatusError. -/
theorem C4_counterexample_timeout_escapes_untyped :
    get_conversation "c1" .timeout = .error (.untyped "httpx.TimeoutException")
    ∧ typedResult (get_conversation "c1" .timeout) = false :=
  ⟨rfl, rfl⟩

/-- C4 amended: operations with a catch-all handler (create_conversation,
list_conversations, smart_query, score_message_importance, generate_summary,
get_pruning_suggestions, suggest_labels, export, the status update behind
pin and archive, get_mcp_tools) return a decoded result or a typed error on
every transport outcome; get_conversation, update_label and
delete_conversation do so exactly on successes and HTTP status errors, and
let timeouts, connection failures and other transport exceptions escape
untyped. -/
theorem C4_amended_typed_outcomes (cid : String) (o : HttpOutcome) :
    typedResult (create_conversation o) = true
    ∧ typedResult (list_conversations o) = true
    ∧ typedResult (smart_query o) = true
    ∧ typedResult (score_message_importance o) = true
    ∧ typedResult (generate_summary o) = true
    ∧ typedResult (get_pruning_suggestions o) = true
    ∧ typedResult (suggest_labels o) = true
    ∧ typedResult (export_conversations o) = true
    ∧ typedResult (update_status cid o) = true
    ∧ typedResult (get_mcp_tools o) = true
    ∧ (typedResult (get_conversation cid o) = true ↔ o.isHttpLevel = true)
    ∧ (typedResult (update_label cid o) = true ↔ o.isHttpLevel = true)
    ∧ (typedResult (delete_conversation cid o) = true ↔ o.isHttpLevel = true) := by
  cases o <;>
    (simp [create_conversation, list_conversations, smart_query,
       score_message_importance, generate_summary, get_pruning_suggestions,
       suggest_labels, export_conversations, update_status, get_mcp_tools,
       get_conversation, update_label, delete_conversation, typedResult,
       Raised.isTyped, HttpOutcome.isHttpLevel]
     try split_ifs
     all_goals simp [typedResult, Raised.isTyped])

end Sekha
